import Mathlib

/- Shallow embedding of the smithery-multi-step-agent TypeScript repository:
   src/utils.ts (callWithRetry), src/agent.ts (ContentGenerationAgent research,
   draft, translate, executeWorkflow), src/oauthUtils.ts (the callback listener
   inside waitForOAuthCallback) and src/mcpClient.ts
   (InteractiveOAuthClient.attemptConnection).
   Remote tool servers are modelled as oracles: a function from the invocation
   index to the outcome of that invocation, so that statements about how many
   times a remote tool is invoked can be made. -/

namespace SmitheryAgent

/-- A JavaScript-like runtime value, covering the shapes the agent code builds
and inspects: null, booleans, numbers (modelled as integers, which covers every
numeral the sources use), strings, arrays and plain objects as key-value lists. -/
inductive Value : Type where
  | null : Value
  | bool : Bool → Value
  | num : Int → Value
  | str : String → Value
  | arr : List Value → Value
  | obj : List (String × Value) → Value

/-- JavaScript truthiness of a value, as used by conditions such as
the guard researchData and researchData.content in src/agent.ts. -/
def jsTruthy : Value → Bool
  | .null => false
  | .bool b => b
  | .num n => n != 0
  | .str s => s != ""
  | .arr _ => true
  | .obj _ => true

/-- JavaScript property access v.key restricted to data properties: on an
object literal it returns the value bound to the key (none models the JS
undefined for an absent key); on every non-object value it returns none,
matching that the sources only ever read data keys that exist on object
results or get undefined back. -/
def getField (v : Value) (key : String) : Option Value :=
  match v with
  | .obj fields => (fields.find? (fun p => p.1 == key)).map (fun p => p.2)
  | _ => none

mutual

/-- JavaScript string coercion String(v), used where the sources concatenate a
possibly non-string value into a string (item.text + newline in the draft step). -/
def jsToString : Value → String
  | .null => "null"
  | .bool b => if b then "true" else "false"
  | .num n => toString n
  | .str s => s
  | .obj _ => "[object Object]"
  | .arr items => jsArrToString items

/-- JavaScript array-to-string coercion: elements joined by commas, with null
elements rendered as the empty string. -/
def jsArrToString : List Value → String
  | [] => ""
  | [Value.null] => ""
  | [v] => jsToString v
  | Value.null :: rest => "," ++ jsArrToString rest
  | v :: rest => jsToString v ++ "," ++ jsArrToString rest

end

/-- A thrown JavaScript value as the agent catch blocks see it: either an Error
object carrying a message (the error instanceof Error case), or some other
thrown value, which carries no message. -/
inductive JSError : Type where
  | error : String → JSError
  | nonError : JSError

/-- The expression error instanceof Error ? error.message : fallback that every
catch block in src/agent.ts uses to render the caught value. -/
def errMessage : JSError → String → String
  | .error m, _ => m
  | .nonError, fallback => fallback

/-- The AgentResult interface of src/agent.ts lines 17 to 22. The TypeScript
interface declares exactly success, data, error and step; it declares no
metadata field. The metadata field below is included only so that spec-level
statements about step metadata can be written down at all: since the source
interface lacks the field and no code writes it, every result produced by the
embedded code has metadata = none. -/
structure AgentResult where
  success : Bool
  data : Option Value
  error : Option String
  step : Option String
  metadata : Option Value

/-- Step 1 of the pipeline, ContentGenerationAgent.research (src/agent.ts lines
56 to 80). The searchTool oracle gives the outcome of each successive
callToolDirect invocation on the Exa client with tool name web_search_exa and
arguments query and num_results 5; the body performs exactly one invocation
(index 0) with no retry wrapper around it, then wraps the outcome. -/
def research (query : String) (searchTool : Nat → Except JSError Value) : AgentResult :=
  match searchTool 0 with
  | .ok result =>
    { success := true, data := some result, error := none,
      step := some "research", metadata := none }
  | .error e =>
    { success := false, data := none,
      error := some (errMessage e "Unknown research error"),
      step := some "research", metadata := none }

/-- One iteration of the forEach over researchData.content in the draft step:
when the item has a type field strictly equal to the string text, its text
field (string-coerced, undefined when absent) plus a newline is appended to the
accumulator; a null item makes the property read item.type throw. -/
def summaryStep (acc : String) (item : Value) : Except JSError String :=
  match item with
  | .null => .error (.error "Cannot read properties of null reading type")
  | item =>
    match getField item "type" with
    | some (.str t) =>
      if t = "text" then
        match getField item "text" with
        | some v => .ok (acc ++ jsToString v ++ "\n")
        | none => .ok (acc ++ "undefined\n")
      else .ok acc
    | _ => .ok acc

/-- The summary-extraction part of ContentGenerationAgent.draft: if
researchData is truthy and has a truthy content field, that field is iterated
with forEach (throwing when it is not an array); otherwise the summary stays
empty. -/
def researchSummary (researchData : Value) : Except JSError String :=
  if jsTruthy researchData then
    match getField researchData "content" with
    | some content =>
      if jsTruthy content then
        match content with
        | .arr items => items.foldlM summaryStep ""
        | _ => .error (.error "researchData.content.forEach is not a function")
      else .ok ""
    | none => .ok ""
  else .ok ""

/-- The template literal of the draft step (src/agent.ts lines 102 to 116) with
the extracted research summary interpolated, trimmed as in the source. -/
def draftTemplate (summary : String) : String :=
  ("\n# Research Summary\n\nBased on the latest research findings, here are the key insights:\n\n"
    ++ summary
    ++ "\n\n## Key Points:\n- Research indicates important developments in the field\n- Multiple sources confirm the growing significance\n- Experts recommend staying informed about these trends\n\n## Conclusion:\nThe research provides valuable insights that can inform decision-making and strategy development.\n            ").trim

/-- Step 2 of the pipeline, ContentGenerationAgent.draft (src/agent.ts lines 86
to 132): builds the draft string from the research data, catching any exception
thrown while extracting the summary. -/
def draft (researchData : Value) : AgentResult :=
  match researchSummary researchData with
  | .ok s =>
    { success := true, data := some (.str (draftTemplate s)), error := none,
      step := some "draft", metadata := none }
  | .error e =>
    { success := false, data := none,
      error := some (errMessage e "Unknown draft error"),
      step := some "draft", metadata := none }

/-- The fallback payload built in the catch branch of
ContentGenerationAgent.translate (src/agent.ts lines 159 to 165). -/
def fallbackResult (text targetLanguage : String) : Value :=
  .obj [("original_text", .str text),
        ("translated_text", .str text),
        ("warning", .str "Translation failed, returning original text"),
        ("target_language", .str targetLanguage),
        ("fallback_applied", .bool true)]

/-- Step 3 of the pipeline, ContentGenerationAgent.translate (src/agent.ts
lines 137 to 174). The translateTool oracle gives the outcome of each
successive callToolDirect invocation on the DeepL client with tool name
translate-text and arguments text and targetLang; the body performs exactly one
invocation (index 0). On failure the step still reports success, with the
fallback payload as data and an error string recording the underlying message.
The TypeScript default for targetLanguage is the string es. -/
def translate (text : String) (targetLanguage : String)
    (translateTool : Nat → Except JSError Value) : AgentResult :=
  match translateTool 0 with
  | .ok result =>
    { success := true, data := some result, error := none,
      step := some "translate", metadata := none }
  | .error e =>
    { success := true, data := some (fallbackResult text targetLanguage),
      error := some ("Translation failed but fallback applied: " ++ errMessage e "Unknown error"),
      step := some "translate", metadata := none }

/-- The translate step as seen in an environment that also offers a secondary
translation provider. The source translate (src/agent.ts lines 137 to 174)
calls only the single DeepL client; no code path consults any secondary tool,
so the secondaryTool argument cannot influence the result. -/
def translateEnv (text targetLanguage : String)
    (primaryTool secondaryTool : Nat → Except JSError Value) : AgentResult :=
  translate text targetLanguage primaryTool

/-- The runtime effect of the unchecked cast draftResult.data as string when
the workflow hands the draft data to translate: draft success data is always a
string value, whose contents are extracted here. -/
def valueAsString : Option Value → String
  | some (.str s) => s
  | some v => jsToString v
  | none => "undefined"

/-- ContentGenerationAgent.executeWorkflow (src/agent.ts lines 179 to 225):
research, then draft, then translate, short-circuiting on a failed research or
draft result and aggregating all three data payloads on success. The top-level
catch of the source is unreachable because each step catches its own
exceptions, so it has no counterpart here. -/
def executeWorkflow (query targetLanguage : String)
    (searchTool translateTool : Nat → Except JSError Value) : AgentResult :=
  let researchResult := research query searchTool
  if researchResult.success then
    let draftResult := draft (researchResult.data.getD .null)
    if draftResult.success then
      let translateResult := translate (valueAsString draftResult.data) targetLanguage translateTool
      { success := true,
        data := some (.obj [
          ("query", .str query),
          ("targetLanguage", .str targetLanguage),
          ("research", researchResult.data.getD .null),
          ("draft", draftResult.data.getD .null),
          ("translation", translateResult.data.getD .null),
          ("workflow_status", .str "complete")]),
        error := none, step := some "workflow", metadata := none }
    else draftResult
  else researchResult

/-- The observable trace of one callWithRetry run: the value returned or error
thrown, the number of times the operation was invoked, and the list of backoff
delays that were scheduled between attempts, in order. -/
structure RetryTrace where
  result : Except JSError Value
  calls : Nat
  delays : List Nat

/-- The while loop of callWithRetry (src/utils.ts lines 8 to 21), recursing on
the number of loop iterations still allowed, which is maxRetries minus the
current value of the attempt counter. The parameters are the iterations
remaining, the current attempt counter, the number of operation invocations so
far and the delays scheduled so far. On a caught failure the attempt counter is
first incremented; if it then equals maxRetries (remaining = 0 after this
iteration) the caught error is rethrown unchanged, otherwise a delay of
baseDelayMs times 2 to the power of the incremented counter is scheduled and
the loop continues. Falling out of the loop (zero iterations allowed) throws
the Exceeded max retries error, exactly as line 22 of the source. -/
def callWithRetryGo (callFn : Nat → Except JSError Value) (baseDelayMs : Nat) :
    Nat → Nat → Nat → List Nat → RetryTrace
  | 0, _, calls, ds =>
    { result := .error (.error "Exceeded max retries"), calls := calls, delays := ds }
  | remaining + 1, attemptIdx, calls, ds =>
    match callFn calls, remaining with
    | .ok v, _ => { result := .ok v, calls := calls + 1, delays := ds }
    | .error e, 0 => { result := .error e, calls := calls + 1, delays := ds }
    | .error _, r + 1 =>
      callWithRetryGo callFn baseDelayMs (r + 1) (attemptIdx + 1) (calls + 1)
        (ds ++ [baseDelayMs * 2 ^ (attemptIdx + 1)])

/-- callWithRetry of src/utils.ts lines 1 to 23. The callFn oracle gives the
outcome of each successive invocation of the wrapped operation. The TypeScript
defaults are maxRetries 3 and baseDelayMs 500; the source is generic in the
result type, instantiated here at Value, the payload type every caller in the
repository uses. -/
def callWithRetry (callFn : Nat → Except JSError Value)
    (maxRetries baseDelayMs : Nat) : RetryTrace :=
  callWithRetryGo callFn baseDelayMs maxRetries 0 0 []

/-- A request reaching the callback listener of waitForOAuthCallback
(src/oauthUtils.ts lines 36 to 102), already split into the request path and
the code and error query parameters; none models an absent parameter and
some of the empty string a parameter present with an empty value, matching what
searchParams.get returns. -/
structure CallbackRequest where
  url : String
  code : Option String
  error : Option String

/-- Truthiness of a searchParams.get result: null (absent) and the empty
string are both falsy in the conditions if code and else if error. -/
def optTruthy : Option String → Bool
  | none => false
  | some s => s != ""

/-- Settling a JavaScript promise: resolve and reject are no-ops once the
promise is settled, so the first recorded outcome is kept. The outcome is ok
of the authorization code on resolve, or error of the rejection message. -/
def settleOnce (settled : Option (Except String String)) (outcome : Except String String) :
    Option (Except String String) :=
  match settled with
  | some r => some r
  | none => some outcome

/-- The request handler of the callback listener (src/oauthUtils.ts lines 38 to
90) acting on the promise state, returning the new promise state and the HTTP
status code written for the request: 404 for a favicon probe (no settling),
200 and resolve with the code when the code parameter is truthy, 400 and
reject with the provider error when only the error parameter is truthy, and
400 and reject with the no-code message otherwise. Response bodies are not
modelled; no claim mentions them. -/
def handleRequest (settled : Option (Except String String)) (req : CallbackRequest) :
    Option (Except String String) × Nat :=
  if req.url = "/favicon.ico" then (settled, 404)
  else if optTruthy req.code then
    (settleOnce settled (.ok (req.code.getD "")), 200)
  else if optTruthy req.error then
    (settleOnce settled (.error ("OAuth authorization failed: " ++ req.error.getD "")), 400)
  else
    (settleOnce settled (.error "No authorization code provided"), 400)

/-- The promise state after the listener has served a sequence of requests in
order, starting from the given state. -/
def processRequests (settled : Option (Except String String))
    (reqs : List CallbackRequest) : Option (Except String String) :=
  reqs.foldl (fun s q => (handleRequest s q).1) settled

/-- Outcome of one client.connect call inside
InteractiveOAuthClient.attemptConnection (src/mcpClient.ts lines 34 to 59):
success, an UnauthorizedError, or any other failure. -/
inductive ConnectOutcome : Type where
  | ok : ConnectOutcome
  | unauthorized : ConnectOutcome
  | failure : String → ConnectOutcome

/-- The observable trace of attemptConnection: the final outcome (none when the
given fuel ran out before the recursion finished, which models the recursion
not terminating within that many nested calls), the number of connection
attempts made and the number of callback-listener instantiations, that is,
calls of waitForOAuthCallback. -/
structure ConnTrace where
  result : Option (Except String Unit)
  attempts : Nat
  listeners : Nat

/-- The self-recursive attemptConnection of src/mcpClient.ts lines 34 to 59,
instrumented with a fuel bound on the recursion depth. Each level makes one
connection attempt, indexed by connectOutcome; on an UnauthorizedError it
instantiates one callback listener, indexed by callbackOutcome, and on a
received code recurses with no other bound (a rejected callback promise
propagates out of the catch block; transport.finishAuth is not modelled as
failing since no claim concerns it); any other failure is rethrown. -/
def attemptConnectionGo (connectOutcome : Nat → ConnectOutcome)
    (callbackOutcome : Nat → Except String String) :
    Nat → Nat → Nat → ConnTrace
  | 0, _, _ => { result := none, attempts := 0, listeners := 0 }
  | fuel + 1, attemptIdx, listenerIdx =>
    match connectOutcome attemptIdx with
    | .ok => { result := some (.ok ()), attempts := 1, listeners := 0 }
    | .failure e => { result := some (.error e), attempts := 1, listeners := 0 }
    | .unauthorized =>
      match callbackOutcome listenerIdx with
      | .error e => { result := some (.error e), attempts := 1, listeners := 1 }
      | .ok _ =>
        let t := attemptConnectionGo connectOutcome callbackOutcome fuel
          (attemptIdx + 1) (listenerIdx + 1)
        { result := t.result, attempts := t.attempts + 1, listeners := t.listeners + 1 }

/-- attemptConnection started as connectWithoutLoop starts it, with fresh
attempt and listener indices. -/
def attemptConnection (connectOutcome : Nat → ConnectOutcome)
    (callbackOutcome : Nat → Except String String) (fuel : Nat) : ConnTrace :=
  attemptConnectionGo connectOutcome callbackOutcome fuel 0 0

/-- The StepResult invariant of the spec data model: a failed result carries an
error and a successful result carries data. -/
def resultInvariant (r : AgentResult) : Prop :=
  (r.success = false → r.error ≠ none) ∧ (r.success = true → r.data ≠ none)

theorem callWithRetryGo_ok (callFn : Nat → Except JSError Value)
    (b remaining attemptIdx calls : Nat) (ds : List Nat) (v : Value)
    (h : callFn calls = .ok v) :
    callWithRetryGo callFn b (remaining + 1) attemptIdx calls ds =
      { result := .ok v, calls := calls + 1, delays := ds } := by
  rw [callWithRetryGo.eq_def]
  conv_lhs => whnf
  rw [h]

theorem callWithRetryGo_errLast (callFn : Nat → Except JSError Value)
    (b attemptIdx calls : Nat) (ds : List Nat) (e : JSError)
    (h : callFn calls = .error e) :
    callWithRetryGo callFn b (0 + 1) attemptIdx calls ds =
      { result := .error e, calls := calls + 1, delays := ds } := by
  rw [callWithRetryGo.eq_def]
  conv_lhs => whnf
  rw [h]

theorem callWithRetryGo_retry (callFn : Nat → Except JSError Value)
    (b r attemptIdx calls : Nat) (ds : List Nat) (e : JSError)
    (h : callFn calls = .error e) :
    callWithRetryGo callFn b (r + 1 + 1) attemptIdx calls ds =
      callWithRetryGo callFn b (r + 1) (attemptIdx + 1) (calls + 1)
        (ds ++ [b * 2 ^ (attemptIdx + 1)]) := by
  rw [callWithRetryGo.eq_def]
  conv_lhs => whnf
  rw [h]

theorem callWithRetryGo_allFail (callFn : Nat → Except JSError Value)
    (errs : Nat → JSError) (hop : ∀ n, callFn n = .error (errs n)) (b : Nat) :
    ∀ r attemptIdx calls ds,
      (callWithRetryGo callFn b (r + 1) attemptIdx calls ds).result = .error (errs (calls + r)) ∧
      (callWithRetryGo callFn b (r + 1) attemptIdx calls ds).calls = calls + r + 1 := by
  intro r
  induction r with
  | zero =>
    intro attemptIdx calls ds
    rw [callWithRetryGo_errLast callFn b attemptIdx calls ds (errs calls) (hop calls)]
    exact ⟨rfl, rfl⟩
  | succ r ih =>
    intro attemptIdx calls ds
    rw [callWithRetryGo_retry callFn b r attemptIdx calls ds (errs calls) (hop calls)]
    have h2 := ih (attemptIdx + 1) (calls + 1) (ds ++ [b * 2 ^ (attemptIdx + 1)])
    have harith : calls + 1 + r = calls + (r + 1) := by omega
    refine ⟨?_, ?_⟩
    · rw [h2.1, harith]
    · rw [h2.2]
      omega

/-- C2: for every operation that fails on every invocation and every
maxAttempts at least 1, callWithRetry invokes the operation exactly maxAttempts
times and then rethrows the final invocation failure itself, unwrapped. -/
theorem claim2_retry_exhaustion (callFn : Nat → Except JSError Value)
    (errs : Nat → JSError) (hop : ∀ n, callFn n = .error (errs n))
    (maxAttempts baseDelay : Nat) (hm : 1 ≤ maxAttempts) :
    (callWithRetry callFn maxAttempts baseDelay).result = .error (errs (maxAttempts - 1)) ∧
    (callWithRetry callFn maxAttempts baseDelay).calls = maxAttempts := by
  obtain ⟨r, rfl⟩ : ∃ r, maxAttempts = r + 1 := ⟨maxAttempts - 1, by omega⟩
  have h := callWithRetryGo_allFail callFn errs hop baseDelay r 0 0 []
  unfold callWithRetry
  have harith : (0 : Nat) + r = r + 1 - 1 := by omega
  refine ⟨?_, ?_⟩
  · rw [h.1, harith]
  · rw [h.2]
    omega

/-- Witness for C2 at a concrete always-failing operation with two attempts. -/
theorem claim2_witness :
    (callWithRetry (fun _ => .error (.error "boom")) 2 7).result = .error (.error "boom") ∧
    (callWithRetry (fun _ => .error (.error "boom")) 2 7).calls = 2 :=
  claim2_retry_exhaustion (fun _ => .error (.error "boom")) (fun _ => .error "boom")
    (fun _ => rfl) 2 7 (by omega)

/-- C6: for an operation failing exactly twice and then succeeding,
callWithRetry with 3 attempts and base delay 100 returns the success value
after exactly 3 invocations, scheduling waits of 100 times 2 to the 1 and then
100 times 2 to the 2 between the invocations. -/
theorem claim6_retry_backoff (e0 e1 : JSError) (v : Value)
    (op : Nat → Except JSError Value)
    (h0 : op 0 = .error e0) (h1 : op 1 = .error e1) (h2 : op 2 = .ok v) :
    callWithRetry op 3 100 = { result := .ok v, calls := 3, delays := [200, 400] } := by
  show callWithRetryGo op 100 (1 + 1 + 1) 0 0 [] = _
  rw [callWithRetryGo_retry op 100 1 0 0 [] e0 h0]
  norm_num
  show callWithRetryGo op 100 (0 + 1 + 1) 1 1 [200] = _
  rw [callWithRetryGo_retry op 100 0 1 1 [200] e1 h1]
  norm_num
  show callWithRetryGo op 100 (0 + 1) 2 2 [200, 400] = _
  rw [callWithRetryGo_ok op 100 0 2 2 [200, 400] v h2]

/-- Witness for C6 at a concrete operation failing twice then succeeding. -/
theorem claim6_witness :
    callWithRetry
      (fun n => if n = 0 then .error (.error "first") else
        if n = 1 then .error (.error "second") else .ok (.str "value")) 3 100 =
      { result := .ok (.str "value"), calls := 3, delays := [200, 400] } :=
  claim6_retry_backoff (.error "first") (.error "second") (.str "value") _ rfl rfl rfl

/-- C1 counterexample: at a concrete failing translation call, the translate
step data is the five-field fallback payload, which carries a warning binding,
so it is not equal to the four-field object the claim states, neither as a
literal nor as a key-value mapping. -/
theorem claim1_counterexample :
    (translate "Hello" "fr" (fun _ => .error (.error "boom"))).data =
      some (fallbackResult "Hello" "fr") ∧
    getField (fallbackResult "Hello" "fr") "warning" =
      some (.str "Translation failed, returning original text") ∧
    getField (.obj [("original_text", .str "Hello"), ("translated_text", .str "Hello"),
      ("fallback_applied", .bool true), ("target_language", .str "fr")]) "warning" = none ∧
    (translate "Hello" "fr" (fun _ => .error (.error "boom"))).data ≠
      some (.obj [("original_text", .str "Hello"), ("translated_text", .str "Hello"),
        ("fallback_applied", .bool true), ("target_language", .str "fr")]) := by
  refine ⟨rfl, rfl, rfl, ?_⟩
  intro h
  have h2 := congrArg (fun d => getField (d.getD Value.null) "warning") h
  simp only [translate, fallbackResult, getField] at h2
  simp at h2

/-- C1 (corrected): for every draft text, target language and failing
translation call, the translate step returns a StepResult with success true
whose data is the fallback payload carrying original_text, translated_text,
fallback_applied true and target_language as claimed plus a warning field, and
a translation failure never aborts the pipeline: when research and draft
succeed the overall workflow result still has success true. -/
theorem claim1_translate_fallback (draftText targetLang : String) (e : JSError)
    (translateTool : Nat → Except JSError Value) (ht : translateTool 0 = .error e)
    (query : String) (searchTool : Nat → Except JSError Value) (rv : Value)
    (hs : searchTool 0 = .ok rv) (hd : (draft rv).success = true) :
    translate draftText targetLang translateTool =
      { success := true, data := some (fallbackResult draftText targetLang),
        error := some ("Translation failed but fallback applied: " ++ errMessage e "Unknown error"),
        step := some "translate", metadata := none } ∧
    (executeWorkflow query targetLang searchTool translateTool).success = true := by
  constructor
  · simp [translate, ht]
  · simp [executeWorkflow, research, hs, hd]

/-- Witness for C1 at a concrete failing translation tool, with a concrete
succeeding research result. -/
theorem claim1_witness :
    translate "Hola" "es" (fun _ => .error (.error "boom")) =
      { success := true, data := some (fallbackResult "Hola" "es"),
        error := some ("Translation failed but fallback applied: " ++ errMessage (.error "boom") "Unknown error"),
        step := some "translate", metadata := none } ∧
    (executeWorkflow "q" "es" (fun _ => .ok .null) (fun _ => .error (.error "boom"))).success = true :=
  claim1_translate_fallback "Hola" "es" (.error "boom") _ rfl "q" _ .null rfl rfl

/-- C3 counterexample: a concrete search tool that fails only on its first
invocation (fewer than 3 failures). An actual 3-attempt retry wrapper around it
succeeds, yet the research step fails, because the step invokes the tool
exactly once with no retry wrapper. -/
theorem claim3_counterexample :
    (research "ai trends"
      (fun n => if n = 0 then .error (.error "fetch error") else .ok (.str "results"))).success
      = false ∧
    (callWithRetry
      (fun n => if n = 0 then .error (.error "fetch error") else .ok (.str "results"))
      3 1000).result = .ok (.str "results") :=
  ⟨rfl, rfl⟩

/-- C3 (corrected): the research step invokes the search tool exactly once and
applies no retry policy: its result is determined by the first invocation
alone, a succeeding first call gives a successful StepResult with the tool
result as data, and a failing first call immediately gives a failed StepResult. -/
theorem claim3_research_single_call (query : String)
    (searchTool altTool : Nat → Except JSError Value) (v : Value) (m : String) :
    (searchTool 0 = .ok v → research query searchTool =
      { success := true, data := some v, error := none,
        step := some "research", metadata := none }) ∧
    (searchTool 0 = .error (.error m) → research query searchTool =
      { success := false, data := none, error := some m,
        step := some "research", metadata := none }) ∧
    (searchTool 0 = altTool 0 → research query searchTool = research query altTool) := by
  refine ⟨fun h => by simp [research, h], fun h => by simp [research, errMessage, h], fun h => ?_⟩
  simp [research, h]

/-- Witness for C3 at a concrete succeeding search tool. -/
theorem claim3_witness :
    research "q" (fun _ => .ok (.str "r")) =
      { success := true, data := some (.str "r"), error := none,
        step := some "research", metadata := none } :=
  (claim3_research_single_call "q" (fun _ => .ok (.str "r")) (fun _ => .ok (.str "r"))
    (.str "r") "m").1 rfl

/-- C4 counterexample: at a concrete research failure with a timeout message
the workflow result does have success false, step research, and the error
message, but it carries no metadata at all (the AgentResult interface has no
metadata field), so no error_type transient or retryable true classification
exists on it. -/
theorem claim4_counterexample :
    executeWorkflow "q" "es" (fun _ => .error (.error "Request timeout"))
      (fun _ => .ok .null) =
      { success := false, data := none, error := some "Request timeout",
        step := some "research", metadata := none } ∧
    (executeWorkflow "q" "es" (fun _ => .error (.error "Request timeout"))
      (fun _ => .ok .null)).metadata = none :=
  ⟨rfl, rfl⟩

/-- C4 (corrected): for every research failure, whatever the message, the
workflow result is exactly the failed research StepResult: success false, step
research, the terminal error message, and no metadata classification of any
kind; draft and translate are never invoked, so the result does not depend on
the translation tool. -/
theorem claim4_research_failure_halts (query lang m : String)
    (searchTool trTool trTool2 : Nat → Except JSError Value)
    (h : searchTool 0 = .error (.error m)) :
    executeWorkflow query lang searchTool trTool = research query searchTool ∧
    executeWorkflow query lang searchTool trTool =
      { success := false, data := none, error := some m,
        step := some "research", metadata := none } ∧
    executeWorkflow query lang searchTool trTool =
      executeWorkflow query lang searchTool trTool2 := by
    refine ⟨?_, ?_, ?_⟩ <;> simp [executeWorkflow, research, errMessage, h]

/-- Witness for C4 at a concrete timeout-failing search tool. -/
theorem claim4_witness :
    executeWorkflow "q" "fr" (fun _ => .error (.error "Request timeout"))
      (fun _ => .ok .null) =
      { success := false, data := none, error := some "Request timeout",
        step := some "research", metadata := none } :=
  (claim4_research_failure_halts "q" "fr" "Request timeout"
    (fun _ => .error (.error "Request timeout")) (fun _ => .ok .null)
    (fun _ => .ok .null) rfl).2.1

/-- C5 counterexample: at a concrete run where the primary translation tool
fails while a secondary translation tool would succeed, the translate step data
is just the local fallback payload: it has no fallback_used and no
primary_error binding. -/
theorem claim5_counterexample :
    getField (((translateEnv "hello" "es" (fun _ => .error (.error "deepl down"))
        (fun _ => .ok (.obj [("translated_text", .str "hola")]))).data).getD .null)
      "fallback_used" = none ∧
    getField (((translateEnv "hello" "es" (fun _ => .error (.error "deepl down"))
        (fun _ => .ok (.obj [("translated_text", .str "hola")]))).data).getD .null)
      "primary_error" = none ∧
    (translateEnv "hello" "es" (fun _ => .error (.error "deepl down"))
        (fun _ => .ok (.obj [("translated_text", .str "hola")]))).data =
      some (fallbackResult "hello" "es") :=
  ⟨rfl, rfl, rfl⟩

/-- C5 (corrected): when the primary translation tool fails, the translate step
never attempts any secondary translation tool: the result is the local fallback
payload with success true and the primary error recorded in the error string,
and it is independent of the behavior of any secondary provider. -/
theorem claim5_no_secondary (text lang : String) (e : JSError)
    (primaryTool secondaryTool secondaryTool2 : Nat → Except JSError Value)
    (h : primaryTool 0 = .error e) :
    translateEnv text lang primaryTool secondaryTool =
      { success := true, data := some (fallbackResult text lang),
        error := some ("Translation failed but fallback applied: " ++ errMessage e "Unknown error"),
        step := some "translate", metadata := none } ∧
    translateEnv text lang primaryTool secondaryTool =
      translateEnv text lang primaryTool secondaryTool2 := by
  refine ⟨?_, rfl⟩
  simp [translateEnv, translate, h]

/-- Witness for C5 at a concrete failing primary and succeeding secondary tool. -/
theorem claim5_witness :
    translateEnv "hello" "es" (fun _ => .error (.error "deepl down"))
      (fun _ => .ok (.str "hola")) =
      { success := true, data := some (fallbackResult "hello" "es"),
        error := some ("Translation failed but fallback applied: " ++ errMessage (.error "deepl down") "Unknown error"),
        step := some "translate", metadata := none } :=
  (claim5_no_secondary "hello" "es" (.error "deepl down") _
    (fun _ => .ok (.str "hola")) (fun _ => .ok (.str "hola")) rfl).1

theorem handleRequest_settled (r : Except String String) (req : CallbackRequest) :
    (handleRequest (some r) req).1 = some r := by
  by_cases h1 : req.url = "/favicon.ico" <;>
    by_cases h2 : optTruthy req.code <;>
    by_cases h3 : optTruthy req.error <;>
    simp [handleRequest, settleOnce, h1, h2, h3]

theorem processRequests_settled (r : Except String String) (reqs : List CallbackRequest) :
    processRequests (some r) reqs = some r := by
  induction reqs with
  | nil => rfl
  | cons q rest ih =>
    show processRequests (handleRequest (some r) q).1 rest = some r
    rw [handleRequest_settled r q]
    exact ih

/-- C7 counterexample: a first request whose code parameter is present but
empty. The claim says a first request carrying code equal to X resolves the
caller with X, but searchParams.get gives the empty string, the truthiness
check treats it as absent, and the listener rejects with the no-code error
instead of resolving with the empty string. -/
theorem claim7_counterexample :
    (handleRequest none { url := "/callback", code := some "", error := none }).1 =
      some (.error "No authorization code provided") := rfl

/-- C7 (corrected): each listener settles exactly once: a first request with a
nonempty code X resolves the caller with X; a first request with a nonempty
error Y rejects with the authorization-failure message carrying Y; a first
request with neither parameter (and not a favicon probe) rejects with the
no-code error (empty-valued parameters count as absent); and once settled, no
later request changes the recorded outcome. -/
theorem claim7_single_resolution :
    (∀ u X, u ≠ "/favicon.ico" → X ≠ "" →
      (handleRequest none { url := u, code := some X, error := none }).1 = some (.ok X)) ∧
    (∀ u Y, u ≠ "/favicon.ico" → Y ≠ "" →
      (handleRequest none { url := u, code := none, error := some Y }).1 =
        some (.error ("OAuth authorization failed: " ++ Y))) ∧
    (∀ u, u ≠ "/favicon.ico" →
      (handleRequest none { url := u, code := none, error := none }).1 =
        some (.error "No authorization code provided")) ∧
    (∀ r req, (handleRequest (some r) req).1 = some r) ∧
    (∀ r reqs, processRequests (some r) reqs = some r) := by
  refine ⟨?_, ?_, ?_, handleRequest_settled, processRequests_settled⟩
  · intro u X hu hX
    simp [handleRequest, optTruthy, settleOnce, hu, hX]
  · intro u Y hu hY
    simp [handleRequest, optTruthy, settleOnce, hu, hY]
  · intro u hu
    simp [handleRequest, optTruthy, settleOnce, hu]

/-- Witness for C7: the first conjunct applied to a concrete request carrying
the code abc123 on the callback path. -/
theorem claim7_witness :
    (handleRequest none { url := "/callback", code := some "abc123", error := none }).1 =
      some (.ok "abc123") :=
  claim7_single_resolution.1 "/callback" "abc123" (by decide) (by decide)

theorem attemptConnectionGo_okStep (co : Nat → ConnectOutcome)
    (cb : Nat → Except String String) (fuel attemptIdx listenerIdx : Nat)
    (hco : co attemptIdx = .ok) :
    attemptConnectionGo co cb (fuel + 1) attemptIdx listenerIdx =
      { result := some (.ok ()), attempts := 1, listeners := 0 } := by
  rw [attemptConnectionGo.eq_def]
  conv_lhs => whnf
  rw [hco]

theorem attemptConnectionGo_unauthorizedStep (co : Nat → ConnectOutcome)
    (cb : Nat → Except String String) (fuel attemptIdx listenerIdx : Nat)
    (code : String) (hco : co attemptIdx = .unauthorized)
    (hcb : cb listenerIdx = .ok code) :
    attemptConnectionGo co cb (fuel + 1) attemptIdx listenerIdx =
      { result := (attemptConnectionGo co cb fuel (attemptIdx + 1) (listenerIdx + 1)).result,
        attempts := (attemptConnectionGo co cb fuel (attemptIdx + 1) (listenerIdx + 1)).attempts + 1,
        listeners := (attemptConnectionGo co cb fuel (attemptIdx + 1) (listenerIdx + 1)).listeners + 1 } := by
  rw [attemptConnectionGo.eq_def]
  conv_lhs => whnf
  rw [hco, hcb]

theorem attemptConnectionGo_allUnauthorized (co : Nat → ConnectOutcome)
    (cb : Nat → Except String String) (code : String)
    (hco : ∀ k, co k = .unauthorized) (hcb : ∀ k, cb k = .ok code) :
    ∀ fuel attemptIdx listenerIdx,
      attemptConnectionGo co cb fuel attemptIdx listenerIdx =
        { result := none, attempts := fuel, listeners := fuel } := by
  intro fuel
  induction fuel with
  | zero => intro _ _; rfl
  | succ f ih =>
    intro a l
    rw [attemptConnectionGo_unauthorizedStep co cb f a l code (hco a) (hcb l), ih (a + 1) (l + 1)]

/-- C8 counterexample: with every connection attempt unauthorized and the
callback always delivering a code, three recursion levels already make three
connection attempts and instantiate three callback listeners without
terminating: the second unauthorized failure is not treated as fatal, it
triggers a further callback-listener instantiation. -/
theorem claim8_counterexample :
    attemptConnection (fun _ => .unauthorized) (fun _ => .ok "abc123") 3 =
      { result := none, attempts := 3, listeners := 3 } := rfl

/-- C8 (corrected): in the success scenario (first attempt unauthorized, code
received, second attempt succeeds) exactly two connection attempts and one
callback-listener instantiation occur; but the reconnect recursion is not
bounded: when every attempt is unauthorized and the callback keeps delivering
codes, every recursion level makes another attempt and instantiates another
callback listener, one listener per granted level of recursion depth, with no
fatal cutoff after the second unauthorized failure. -/
theorem claim8_unbounded_retry (co : Nat → ConnectOutcome)
    (cb : Nat → Except String String) (code : String) (n : Nat)
    (h0 : co 0 = .unauthorized) (h1 : co 1 = .ok) (hcb : cb 0 = .ok code) :
    attemptConnection co cb (n + 1 + 1) =
      { result := some (.ok ()), attempts := 2, listeners := 1 } ∧
    (∀ (co2 : Nat → ConnectOutcome) (cb2 : Nat → Except String String) (code2 : String),
      (∀ k, co2 k = .unauthorized) → (∀ k, cb2 k = .ok code2) →
      ∀ fuel, attemptConnection co2 cb2 fuel =
        { result := none, attempts := fuel, listeners := fuel }) := by
  constructor
  · show attemptConnectionGo co cb (n + 1 + 1) 0 0 = _
    rw [attemptConnectionGo_unauthorizedStep co cb (n + 1) 0 0 code h0 hcb,
      attemptConnectionGo_okStep co cb n 1 1 h1]
  · intro co2 cb2 code2 hco2 hcb2 fuel
    exact attemptConnectionGo_allUnauthorized co2 cb2 code2 hco2 hcb2 fuel 0 0

/-- Witness for C8: a concrete outcome sequence that is unauthorized once and
then succeeds, with the callback delivering abc123. -/
theorem claim8_witness :
    attemptConnection (fun k => if k = 0 then .unauthorized else .ok)
      (fun _ => .ok "abc123") 2 =
      { result := some (.ok ()), attempts := 2, listeners := 1 } :=
  (claim8_unbounded_retry (fun k => if k = 0 then .unauthorized else .ok)
    (fun _ => .ok "abc123") "abc123" 0 rfl rfl rfl).1

/-- C9: every StepResult produced by research, draft, translate or the whole
workflow, for every input and every outcome of the remote calls, satisfies the
invariant: success false implies the error field is set, and success true
implies the data field is set (the fallback payload counting as data). -/
theorem claim9_stepresult_invariant (query lang text : String) (researchData : Value)
    (searchTool trTool : Nat → Except JSError Value) :
    resultInvariant (research query searchTool) ∧
    resultInvariant (draft researchData) ∧
    resultInvariant (translate text lang trTool) ∧
    resultInvariant (executeWorkflow query lang searchTool trTool) := by
  refine ⟨?_, ?_, ?_, ?_⟩
  · cases h : searchTool 0 <;> simp [research, resultInvariant, h]
  · cases h : researchSummary researchData <;> simp [draft, resultInvariant, h]
  · cases h : trTool 0 <;> simp [translate, resultInvariant, h]
  · cases h : searchTool 0 with
    | error e => simp [executeWorkflow, research, resultInvariant, h]
    | ok rv =>
      cases hd : researchSummary rv <;>
        simp [executeWorkflow, research, draft, resultInvariant, h, hd]

/-- C10: whenever the translation call fails with an Error carrying message m,
the translate step result simultaneously has success true and a non-empty
error field reading Translation failed but fallback applied: m, and its data
carries a warning binding, so a successful step result can carry an error
string. -/
theorem claim10_fallback_error_field (text lang m : String)
    (trTool : Nat → Except JSError Value) (h : trTool 0 = .error (.error m)) :
    (translate text lang trTool).success = true ∧
    (translate text lang trTool).error =
      some ("Translation failed but fallback applied: " ++ m) ∧
    getField (((translate text lang trTool).data).getD .null) "warning" =
      some (.str "Translation failed, returning original text") := by
  refine ⟨?_, ?_, ?_⟩ <;> simp [translate, errMessage, fallbackResult, getField, h]

/-- Witness for C10 at a concrete failing translation tool. -/
theorem claim10_witness :
    (translate "hi" "es" (fun _ => .error (.error "boom"))).success = true ∧
    (translate "hi" "es" (fun _ => .error (.error "boom"))).error =
      some ("Translation failed but fallback applied: " ++ "boom") ∧
    getField (((translate "hi" "es" (fun _ => .error (.error "boom"))).data).getD .null)
      "warning" = some (.str "Translation failed, returning original text") :=
  claim10_fallback_error_field "hi" "es" "boom" (fun _ => .error (.error "boom")) rfl

end SmitheryAgent
